import Mathlib

/-!
Verification of the bingo-platforms repository: the bingo card data model,
win detection and marking protocol, and the client-side event handling of
the Telegram bot (`src/unnamed/part_000`, `src/telegram-bot/src/bot.js`)
and the web client (`src/geez-bingo-frontend/src/context/SocketContext.js`).

Pure functions of the source are embedded as Lean functions; the card
model owned by the backend (absent from the repository sources) is
modelled from the specification where noted.
-/

namespace BingoPlatforms

/-- The five bingo column letters, with the fixed column→letter mapping
B, I, N, G, O for columns 0..4. -/
inductive BLetter where
  | B | I | N | G | O
deriving DecidableEq, Repr

/-- Column→letter mapping: 0 ↦ B, 1 ↦ I, 2 ↦ N, 3 ↦ G, 4 ↦ O
(`const columns = ['B', 'I', 'N', 'G', 'O']` in `formatCardAsText`). -/
def letterOfCol (c : Nat) : BLetter :=
  match c with
  | 0 => .B
  | 1 => .I
  | 2 => .N
  | 3 => .G
  | _ => .O

/-- A cell of a bingo card, as read by the clients
(`cell.letter`, `cell.number`, `cell.free`, `cell.called`).
`number` is `none` exactly when the cell carries no number
(JS `undefined`), which the data-model invariant restricts to FREE cells. -/
structure Cell where
  letter : BLetter
  number : Option Nat
  free : Bool
  called : Bool
deriving DecidableEq, Repr

/-- A bingo card as the clients receive it: identifying number, owning
game id, and the 5×5 row-major grid `card.numbers[row][col]`. -/
structure Card where
  number : Nat
  gameId : String
  numbers : List (List Cell)
deriving DecidableEq, Repr

/-- Well-formedness of a card grid: 5 rows of 5 cells each. -/
def Card.wf (card : Card) : Prop :=
  card.numbers.length = 5 ∧ ∀ row ∈ card.numbers, row.length = 5

/-- JS-style grid access `card.numbers[row][col]`: `none` when out of
bounds (JS `undefined`). -/
def cellAt (card : Card) (r c : Nat) : Option Cell :=
  (card.numbers.get? r).bind (fun row => row.get? c)

/-- The `called` flag of the cell at (r, c); `false` out of bounds. -/
def cellCalled (card : Card) (r c : Nat) : Bool :=
  match cellAt card r c with
  | some cell => cell.called
  | none => false

/-- Modelled from the spec: `buildCard` lays out one cell at (r, c) —
the cell is FREE (no number, pre-marked `called = true`) exactly at the
centre (row 2, col 2); every other cell carries the backend-assigned
number for its position and starts unmarked. `nums` abstracts the
backend's per-column numeric assignment. -/
def buildCell (nums : Nat → Nat → Nat) (r c : Nat) : Cell :=
  if r = 2 ∧ c = 2 then
    { letter := letterOfCol c, number := none, free := true, called := true }
  else
    { letter := letterOfCol c, number := some (nums r c), free := false, called := false }

/-- Modelled from the spec: `buildCard(number, columnRanges) → Card`
deterministically lays out five rows of five cells, FREE only at the
centre. (`buildCard` itself is backend code absent from the repository;
the layout is specified in §4.1 of the spec.) -/
def buildCard (cardNo : Nat) (gameId : String) (nums : Nat → Nat → Nat) : Card :=
  { number := cardNo
    gameId := gameId
    numbers := (List.range 5).map (fun r => (List.range 5).map (fun c => buildCell nums r c)) }

/-- Modelled from the spec: the per-cell step of `applyCalledNumber` —
a non-free cell matching (letter, number) gets `called = true`; every
other cell is untouched. -/
def applyCell (l : BLetter) (n : Nat) (c : Cell) : Cell :=
  if c.free = false ∧ c.letter = l ∧ c.number = some n then
    { c with called := true }
  else
    c

/-- Modelled from the spec: `applyCalledNumber(card, letter, number)`
scans all cells and marks the non-free ones matching (letter, number).
(`applyCalledNumber` is backend/component code absent from the
repository; behaviour specified in §4.1 of the spec.) -/
def applyCalledNumber (card : Card) (l : BLetter) (n : Nat) : Card :=
  { card with numbers := card.numbers.map (fun row => row.map (applyCell l n)) }

/-- `markedCount`: the clients count marked cells with
`card.numbers.flat().filter(n => n.called).length`
(`showUserCards` in part_000 line 627; GameRoom line 523). -/
def markedCount (card : Card) : Nat :=
  ((card.numbers.flatten).filter (fun cell => cell.called)).length

/-- A win pattern: five grid positions (row, col). -/
abbrev Pattern := List (Nat × Nat)

/-- Modelled from the spec: the recognized patterns in the detector's
fixed priority order — the 5 rows (top to bottom), the 5 columns (left
to right), then the two full diagonals (top-left→bottom-right,
top-right→bottom-left). (Win-detector code is backend/component code
absent from the repository; §4.2 of the spec.) -/
def patterns : List Pattern :=
  ((List.range 5).map (fun r => (List.range 5).map (fun c => (r, c)))) ++
  ((List.range 5).map (fun c => (List.range 5).map (fun r => (r, c)))) ++
  [(List.range 5).map (fun i => (i, i)), (List.range 5).map (fun i => (i, 4 - i))]

/-- Modelled from the spec: a pattern is complete iff every cell it
covers has `called = true`. -/
def patternComplete (card : Card) (pat : Pattern) : Bool :=
  pat.all (fun p => cellCalled card p.1 p.2)

/-- Modelled from the spec: the win detector returns the first completed
pattern in the fixed order, or `none` for "no win" (§4.2). -/
def findWinningPattern (card : Card) : Option Pattern :=
  patterns.find? (patternComplete card)

/-- Modelled from the spec: the boolean win report of the detector. -/
def checkWin (card : Card) : Bool :=
  (findWinningPattern card).isSome

/-! ### Client-side number_called event processing (§4.3 of the spec)

The component that applies `number_called` events to a held card is
absent from the repository sources (the frontend handler at
`SocketContext.js` lines 277–282 only raises a toast; the card-marking
component `BingoCard` it feeds is not included), so it is modelled from
the spec: a monotonically increasing sequence number detects and
discards duplicate or out-of-order replays. -/

/-- Client state for one held card: the card plus the highest sequence
number of a `number_called` event already applied (0 initially). -/
structure ClientCardState where
  card : Card
  lastSeq : Nat
deriving DecidableEq, Repr

/-- Modelled from the spec: handling one `number_called` event carrying
sequence number `seq`. An event whose sequence number is not greater
than the last applied one is discarded; otherwise the call is applied
to the card. -/
def processNumberCalled (st : ClientCardState) (seq : Nat) (l : BLetter) (n : Nat) :
    ClientCardState :=
  if seq ≤ st.lastSeq then st
  else { card := applyCalledNumber st.card l n, lastSeq := seq }

/-- Apply a list of calls to a card in order (the backend's append-only
`calledNumbers` sequence). -/
def applyCalls (card : Card) (calls : List (BLetter × Nat)) : Card :=
  calls.foldl (fun c p => applyCalledNumber c p.1 p.2) card

/-- Process a stream of `number_called` events, each a (seq, letter,
number) triple, in arrival order. -/
def processEvents (st : ClientCardState) (evs : List (Nat × BLetter × Nat)) :
    ClientCardState :=
  evs.foldl (fun s e => processNumberCalled s e.1 e.2.1 e.2.2) st

/-! ### Source embeddings: Telegram bot `src/unnamed/part_000` -/

/-- `getUserId(chatId)` of part_000 (lines 875–879): returns
`telegram_chatId` as the user id. -/
def getUserId (chatId : Int) : String :=
  "telegram_" ++ toString chatId

/-- JS `padStart(2, '0')` on a string. -/
def padStart2 (s : String) : String :=
  if s.length ≥ 2 then s else if s.length = 1 then "0" ++ s else "00"

/-- One cell of `formatCardAsText` (part_000 lines 476–482): a free
cell prints `" FREE "`; otherwise the cell's number is read
unconditionally and printed as `" <letter><2-digit number> "`.
Reading a missing number is a failure (`none`), mirroring that the JS
would render `undefined`. -/
def formatCell (cell : Cell) : Option String :=
  if cell.free then some " FREE "
  else cell.number.map (fun n =>
    " " ++ (match cell.letter with
            | .B => "B" | .I => "I" | .N => "N" | .G => "G" | .O => "O")
        ++ padStart2 (toString n) ++ " ")

/-- The winner-notification branch of `sendGameNotification`
(part_000 lines 910–919): the payload of a `winner` event. -/
structure WinnerData where
  userId : String
  username : String
  amount : Nat
deriving DecidableEq, Repr

/-- The two message variants the winner branch can produce. -/
inductive WinnerUi where
  | youWon (amount : Nat)
  | opponentWon (username : String) (amount : Nat)
deriving DecidableEq, Repr

/-- `sendGameNotification`'s `winner` case (part_000 lines 910–919):
`data.userId === await this.getUserId(chatId)` selects the
"BINGO! YOU WON" congratulation; any other userId selects the
opponent-won variant naming the winner and amount. -/
def winnerNotification (chatId : Int) (d : WinnerData) : WinnerUi :=
  if d.userId = getUserId chatId then .youWon d.amount
  else .opponentWon d.username d.amount

/-- The `cardNumber` argument of `buyCard` as a JS value: the string
`'random'` (from the random-card button), an integer card number, or
`NaN` (what `parseInt` yields on a non-numeric string). -/
inductive JsCardNumber where
  | randomStr
  | num (n : Int)
  | nan
deriving DecidableEq, Repr

/-- The body of the buy-card HTTP request built by `buyCard`
(part_000 lines 425–429). -/
structure BuyCardBody where
  userId : String
  cardNumber : Option JsCardNumber
  telegramChatId : Int
deriving DecidableEq, Repr

/-- `buyCard` (part_000 lines 419–429) posts
`{ userId, cardNumber: cardNumber === 'random' ? null : cardNumber,
telegramChatId: chatId }`. -/
def buyCardBody (chatId : Int) (cardNumber : JsCardNumber) : BuyCardBody :=
  { userId := getUserId chatId
    cardNumber := if cardNumber = .randomStr then none else some cardNumber
    telegramChatId := chatId }

/-- `handlePlayCommand` (part_000 lines 293–349), fuel-bounded.
`games` gives the backend's answer to the k-th `GET /api/games/current`
(`none` = no current game; `create-game` is assumed to succeed, per the
claim's premise). Result `some ()` means the call chain returned;
`none` means the given recursion depth was exhausted — the
`else` branch at lines 337–343 posts a new game and then re-invokes
`handlePlayCommand` unconditionally. -/
def handlePlayFuel (games : Nat → Option Card) (k : Nat) : Nat → Option Unit
  | 0 => none
  | fuel + 1 =>
    match games k with
    | some _ => some ()
    | none => handlePlayFuel games (k + 1) fuel

/-- The observable outcome of a client operation: a message sent to the
chat, a log-only action, or process termination with an exit code. -/
inductive ClientAction where
  | sendMessage (text : String)
  | logOnly
  | exitProcess (code : Nat)
deriving DecidableEq, Repr

/-- The handlers of the client layer, as set up in part_000 and
`bot.js` (command handlers, the callback-query handler, and the
notification/broadcast senders). -/
inductive Handler where
  | start | play | cardSelection | buyCard | balance | deposit
  | userCards | stats | invite | claimBingo | callback
  | gameUpdate | broadcast
deriving DecidableEq, Repr

/-- The catch clause of each handler in part_000: every command and
callback handler sends a fixed error message to the chat
(lines 128–131, 345–348, 413–416, 462–465, 526–529, 606–609, 649–652,
691–694, 737–740, 869–872, 234–237); `sendGameNotification` and
`broadcastGameUpdate` only log (lines 936–938, 955–957). -/
def handlerFailureAction : Handler → ClientAction
  | .start => .sendMessage "❌ Error registering. Please try again."
  | .play => .sendMessage "❌ Error loading game. Please try again."
  | .cardSelection => .sendMessage "❌ Error loading cards. Please try again."
  | .buyCard => .sendMessage "❌ Error purchasing card. Please check your balance."
  | .balance => .sendMessage "❌ Error loading balance."
  | .deposit => .sendMessage "❌ Error processing deposit."
  | .userCards => .sendMessage "❌ Error loading your cards."
  | .stats => .sendMessage "❌ Error loading statistics."
  | .invite => .sendMessage "❌ Error loading referral info."
  | .claimBingo => .sendMessage "❌ Error checking for bingo."
  | .callback => .sendMessage "❌ Error processing request."
  | .gameUpdate => .logOnly
  | .broadcast => .logOnly

/-- An operation of the client layer: one of the handlers, or the bot
constructor of `src/telegram-bot/src/bot.js`. -/
inductive ClientOperation where
  | handler (h : Handler)
  | botConstructor
deriving DecidableEq, Repr

/-- The `GeezBingoBot` constructor of `bot.js` (lines 36–39): when
`TELEGRAM_BOT_TOKEN` is undefined or empty (JS falsy), it logs an error
and calls `process.exit(1)`. -/
def constructorStep (token : Option String) : ClientAction :=
  if token = none ∨ token = some "" then .exitProcess 1 else .logOnly

/-- What each client operation does on failure: handlers run their
catch clause; the constructor's failure case is a missing token. -/
def clientOpFailureAction : ClientOperation → ClientAction
  | .handler h => handlerFailureAction h
  | .botConstructor => constructorStep none

/-! ### Source embeddings: web client `SocketContext.js` -/

/-- Result of the socket context's `emit` (SocketContext.js
lines 88–94): the event is forwarded to the socket, or only a warning
is logged. -/
inductive EmitResult (α : Type) where
  | forwarded (event : String) (payload : α)
  | warnedOnly
deriving DecidableEq, Repr

/-- `emit(event, data)` of the socket context: forwards iff
`socket && isConnected`, else logs `'Socket not connected'` and does
nothing. `socket` is the socket handle (abstracted by its id),
`none` when the socket state is null. -/
def contextEmit {α : Type} (socket : Option Nat) (isConnected : Bool)
    (event : String) (payload : α) : EmitResult α :=
  if socket.isSome ∧ isConnected then .forwarded event payload
  else .warnedOnly

/-- A concrete 5-cell row with every cell called, for witnesses. -/
def allCalledRow : List Cell :=
  List.replicate 5 { letter := BLetter.N, number := some 1, free := false, called := true }

/-- A concrete 5×5 card with every cell called, for witnesses. -/
def allCalledCard : Card :=
  { number := 1, gameId := "g", numbers := List.replicate 5 allCalledRow }

/-! ## Helper lemmas -/

theorem cellAt_buildCard (cardNo : Nat) (gid : String) (nums : Nat → Nat → Nat)
    (r c : Nat) (hr : r < 5) (hc : c < 5) :
    cellAt (buildCard cardNo gid nums) r c = some (buildCell nums r c) := by
  simp [cellAt, buildCard, List.getElem?_range hr, List.getElem?_range hc]

theorem cellCalled_buildCard (cardNo : Nat) (gid : String) (nums : Nat → Nat → Nat)
    (r c : Nat) :
    cellCalled (buildCard cardNo gid nums) r c = (decide (r = 2) && decide (c = 2)) := by
  by_cases hr : r < 5
  · by_cases hc : c < 5
    · rw [cellCalled, cellAt_buildCard cardNo gid nums r c hr hc]
      by_cases h : r = 2 ∧ c = 2
      · simp [buildCell, h.1, h.2]
      · rw [buildCell, if_neg h]
        simp only [Bool.false_eq, Bool.and_eq_false_iff, decide_eq_false_iff_not]
        tauto
    · have hc2 : c ≠ 2 := by omega
      have h0 : (List.range 5)[c]? = none := List.getElem?_eq_none (by simpa using by omega)
      simp [cellCalled, cellAt, buildCard, List.getElem?_range hr, h0, hc2]
  · have hr2 : r ≠ 2 := by omega
    have h0 : (List.range 5)[r]? = none := List.getElem?_eq_none (by simpa using by omega)
    simp [cellCalled, cellAt, buildCard, h0, hr2]

theorem applyCell_idem (l : BLetter) (n : Nat) (c : Cell) :
    applyCell l n (applyCell l n c) = applyCell l n c := by
  by_cases h : c.free = false ∧ c.letter = l ∧ c.number = some n <;>
    simp [applyCell, h]

theorem flatten_length_of_wf (card : Card) (h : card.wf) :
    card.numbers.flatten.length = 25 := by
  rw [List.length_flatten]
  have hmap : card.numbers.map List.length = List.replicate 5 5 := by
    apply List.eq_replicate_iff.mpr
    constructor
    · simp [h.1]
    · intro b hb
      simp only [List.mem_map] at hb
      obtain ⟨row, hrow, rfl⟩ := hb
      exact h.2 row hrow
  rw [hmap]
  simp

theorem processEvents_enumFrom (calls : List (BLetter × Nat)) :
    ∀ (k : Nat) (st : ClientCardState), st.lastSeq = k →
      processEvents st (List.enumFrom (k + 1) calls) =
        ⟨applyCalls st.card calls, k + calls.length⟩ := by
  induction calls with
  | nil =>
    intro k st hk
    cases st
    simp_all [processEvents, applyCalls, List.enumFrom]
  | cons p t ih =>
    intro k st hk
    obtain ⟨l, n⟩ := p
    have hstep : processNumberCalled st (k + 1) l n =
        ⟨applyCalledNumber st.card l n, k + 1⟩ := by
      rw [processNumberCalled, if_neg (by omega)]
    show processEvents (processNumberCalled st (k + 1) l n) (List.enumFrom (k + 2) t) = _
    rw [hstep, ih (k + 1) _ rfl]
    simp [applyCalls]
    omega

/-! ## Claim theorems -/

/-- Claim C1: the win detector reports a win iff at least one of the 5
rows, 5 columns, or 2 full diagonals has all five of its cells with
`called = true`; and a freshly built card (no calls applied, only the
FREE centre marked) never wins. -/
theorem C1_win_iff_rows_cols_diags (card : Card) (cardNo : Nat) (gid : String)
    (nums : Nat → Nat → Nat) :
    (checkWin card = true ↔
      (∃ r < 5, ∀ c < 5, cellCalled card r c = true) ∨
      (∃ c < 5, ∀ r < 5, cellCalled card r c = true) ∨
      (∀ i < 5, cellCalled card i i = true) ∨
      (∀ i < 5, cellCalled card i (4 - i) = true)) ∧
    checkWin (buildCard cardNo gid nums) = false := by
  constructor
  · rw [checkWin, findWinningPattern, List.find?_isSome]
    constructor
    · rintro ⟨pat, hmem, hcomp⟩
      simp only [patterns, List.mem_append, List.mem_map, List.mem_range,
        List.mem_singleton, List.mem_cons] at hmem
      rcases hmem with (⟨r, hr, rfl⟩ | ⟨c, hc, rfl⟩) | (rfl | rfl | hnil)
      · simp only [patternComplete, List.all_eq_true, List.mem_map, List.mem_range] at hcomp
        left; exact ⟨r, hr, fun c hc => hcomp (r, c) ⟨c, hc, rfl⟩⟩
      · simp only [patternComplete, List.all_eq_true, List.mem_map, List.mem_range] at hcomp
        right; left; exact ⟨c, hc, fun r hr => hcomp (r, c) ⟨r, hr, rfl⟩⟩
      · simp only [patternComplete, List.all_eq_true, List.mem_map, List.mem_range] at hcomp
        right; right; left; exact fun i hi => hcomp (i, i) ⟨i, hi, rfl⟩
      · simp only [patternComplete, List.all_eq_true, List.mem_map, List.mem_range] at hcomp
        right; right; right; exact fun i hi => hcomp (i, 4 - i) ⟨i, hi, rfl⟩
      · exact absurd hnil (by simp)
    · have hcompl : ∀ (f : Nat → Nat × Nat),
          (∀ i < 5, cellCalled card (f i).1 (f i).2 = true) →
          patternComplete card ((List.range 5).map f) = true := by
        intro f hf
        simp only [patternComplete, List.all_eq_true, List.mem_map, List.mem_range]
        rintro x ⟨i, hi, rfl⟩
        exact hf i hi
      intro h
      rcases h with ⟨r, hr, hall⟩ | ⟨c, hc, hall⟩ | hall | hall
      · exact ⟨(List.range 5).map (fun c => (r, c)),
          List.mem_append_left _ (List.mem_append_left _
            (List.mem_map_of_mem _ (List.mem_range.mpr hr))),
          hcompl _ (fun i hi => hall i hi)⟩
      · exact ⟨(List.range 5).map (fun r => (r, c)),
          List.mem_append_left _ (List.mem_append_right _
            (List.mem_map_of_mem _ (List.mem_range.mpr hc))),
          hcompl _ (fun i hi => hall i hi)⟩
      · exact ⟨(List.range 5).map (fun i => (i, i)),
          List.mem_append_right _ (List.mem_cons_self _ _),
          hcompl _ (fun i hi => hall i hi)⟩
      · exact ⟨(List.range 5).map (fun i => (i, 4 - i)),
          List.mem_append_right _ (List.mem_cons_of_mem _ (List.mem_cons_self _ _)),
          hcompl _ (fun i hi => hall i hi)⟩
  · have h : cellCalled (buildCard cardNo gid nums) =
        fun r c => (decide (r = 2) && decide (c = 2)) := by
      funext r c; exact cellCalled_buildCard cardNo gid nums r c
    have hp : patternComplete (buildCard cardNo gid nums) =
        fun pat => pat.all (fun p => decide (p.1 = 2) && decide (p.2 = 2)) := by
      funext pat
      simp only [patternComplete, h]
    rw [checkWin, findWinningPattern, hp]
    decide

/-- Claim C2: `applyCalledNumber` is idempotent — applying the same
(letter, number) call twice yields exactly the marking state of applying
it once — and the per-cell step only sets the `called` flag of non-free
cells matching (letter, number), leaving every other cell and every
other field untouched. -/
theorem C2_applyCalledNumber_idempotent (card : Card) (l : BLetter) (n : Nat) :
    applyCalledNumber (applyCalledNumber card l n) l n = applyCalledNumber card l n ∧
    (applyCalledNumber card l n).number = card.number ∧
    (applyCalledNumber card l n).gameId = card.gameId ∧
    (applyCalledNumber card l n).numbers =
      card.numbers.map (fun row => row.map (applyCell l n)) ∧
    (∀ c : Cell,
      (applyCell l n c).letter = c.letter ∧
      (applyCell l n c).number = c.number ∧
      (applyCell l n c).free = c.free ∧
      (c.free = true → applyCell l n c = c) ∧
      (¬(c.letter = l ∧ c.number = some n) → applyCell l n c = c) ∧
      (c.free = false → c.letter = l → c.number = some n →
        applyCell l n c = { c with called := true })) := by
  refine ⟨?_, rfl, rfl, rfl, ?_⟩
  · have hf : applyCell l n ∘ applyCell l n = applyCell l n :=
      funext (applyCell_idem l n)
    simp [applyCalledNumber, List.map_map, hf]
  · intro c
    by_cases h : c.free = false ∧ c.letter = l ∧ c.number = some n
    · have he : applyCell l n c = { c with called := true } := by
        rw [applyCell, if_pos h]
      refine ⟨by rw [he], by rw [he], by rw [he], ?_, ?_, fun _ _ _ => he⟩
      · intro hfree
        simp [h.1] at hfree
      · intro hnm
        exact absurd ⟨h.2.1, h.2.2⟩ hnm
    · have he : applyCell l n c = c := by
        rw [applyCell, if_neg h]
      refine ⟨by rw [he], by rw [he], by rw [he], fun _ => he, fun _ => he, ?_⟩
      intro h1 h2 h3
      exact absurd ⟨h1, h2, h3⟩ h

/-- Witness for C2 at a concrete cell: a non-free matching cell gets its
`called` flag set. -/
theorem C2_witness :
    applyCell BLetter.B 7
      { letter := BLetter.B, number := some 7, free := false, called := false } =
      { letter := BLetter.B, number := some 7, free := false, called := true } :=
  ((C2_applyCalledNumber_idempotent allCalledCard BLetter.B 7).2.2.2.2
    { letter := BLetter.B, number := some 7, free := false, called := false }).2.2.2.2.2
    rfl rfl rfl

/-- Claim C3: in every constructed card the centre cell (row 2, col 2)
is the unique FREE cell, with `free = true`, `called = true` and no
number, while every non-free cell carries its backend-assigned number;
hence the card formatter (`formatCardAsText`), which prints FREE for a
free cell and otherwise reads `cell.number` unconditionally, succeeds
on every cell. -/
theorem C3_buildCard_invariants (cardNo : Nat) (gid : String)
    (nums : Nat → Nat → Nat) (r c : Nat) (hr : r < 5) (hc : c < 5) :
    ∃ cell, cellAt (buildCard cardNo gid nums) r c = some cell ∧
      cell.letter = letterOfCol c ∧
      (cell.free = true ↔ r = 2 ∧ c = 2) ∧
      (r = 2 ∧ c = 2 → cell.free = true ∧ cell.called = true ∧ cell.number = none) ∧
      (¬(r = 2 ∧ c = 2) → cell.free = false ∧ cell.called = false ∧
        cell.number = some (nums r c)) ∧
      (formatCell cell).isSome = true := by
  refine ⟨buildCell nums r c, cellAt_buildCard cardNo gid nums r c hr hc, ?_⟩
  by_cases h : r = 2 ∧ c = 2 <;>
    simp [buildCell, h, formatCell]

/-- Witness for C3 at the centre of a concrete card. -/
theorem C3_witness :
    ∃ cell, cellAt (buildCard 1 "g" (fun r c => 5 * r + c + 1)) 2 2 = some cell ∧
      cell.letter = letterOfCol 2 ∧
      (cell.free = true ↔ 2 = 2 ∧ 2 = 2) ∧
      (2 = 2 ∧ 2 = 2 → cell.free = true ∧ cell.called = true ∧ cell.number = none) ∧
      (¬(2 = 2 ∧ 2 = 2) → cell.free = false ∧ cell.called = false ∧
        cell.number = some ((fun r c => 5 * r + c + 1) 2 2)) ∧
      (formatCell cell).isSome = true :=
  C3_buildCard_invariants 1 "g" (fun r c => 5 * r + c + 1) 2 2 (by decide) (by decide)

/-- Claim C4: a `number_called` event that is a duplicate, or whose
sequence number is not above the highest already applied, leaves the
card's marking state unchanged; replaying an event right after it was
applied is a no-op; and processing the backend's `calledNumbers`
sequence in order (events numbered 1, 2, …) marks the card exactly as
applying the calls in sequence order. -/
theorem C4_number_called_replay_safe (st : ClientCardState) (seq : Nat)
    (l : BLetter) (n : Nat) :
    (seq ≤ st.lastSeq → processNumberCalled st seq l n = st) ∧
    processNumberCalled (processNumberCalled st seq l n) seq l n =
      processNumberCalled st seq l n ∧
    (∀ (card : Card) (calls : List (BLetter × Nat)),
      processEvents ⟨card, 0⟩ (List.enumFrom 1 calls) =
        ⟨applyCalls card calls, calls.length⟩) := by
  refine ⟨?_, ?_, ?_⟩
  · intro h
    rw [processNumberCalled, if_pos h]
  · by_cases h : seq ≤ st.lastSeq
    · have he : processNumberCalled st seq l n = st := by
        rw [processNumberCalled, if_pos h]
      rw [he]
      exact he
    · have he : processNumberCalled st seq l n =
          ⟨applyCalledNumber st.card l n, seq⟩ := by
        rw [processNumberCalled, if_neg h]
      rw [he]
      simp [processNumberCalled]
  · intro card calls
    simpa using processEvents_enumFrom calls 0 ⟨card, 0⟩ rfl

/-- Witness for C4: a stale event (sequence 3, after 5 calls applied)
leaves the client state untouched. -/
theorem C4_witness :
    processNumberCalled ⟨allCalledCard, 5⟩ 3 BLetter.B 7 = ⟨allCalledCard, 5⟩ :=
  (C4_number_called_replay_safe ⟨allCalledCard, 5⟩ 3 BLetter.B 7).1 (by decide)

/-- Claim C5: the bot's winner notification congratulates the local
user iff the event's `userId` equals the local session's user id
(`telegram_chatId`); for any other `userId` it shows only the
opponent-won variant naming the winner and amount. -/
theorem C5_winner_message_iff (chatId : Int) (d : WinnerData) :
    (winnerNotification chatId d = WinnerUi.youWon d.amount ↔
      d.userId = getUserId chatId) ∧
    (d.userId ≠ getUserId chatId →
      winnerNotification chatId d = WinnerUi.opponentWon d.username d.amount) := by
  by_cases h : d.userId = getUserId chatId <;>
    simp [winnerNotification, h]

/-- Witness for C5: a winner event whose userId is another user's id
produces the opponent variant, not the congratulation. -/
theorem C5_witness :
    winnerNotification 5 { userId := "telegram_6", username := "alice", amount := 100 } =
      WinnerUi.opponentWon "alice" 100 :=
  (C5_winner_message_iff 5
    { userId := "telegram_6", username := "alice", amount := 100 }).2 (by decide)

/-- Claim C6 (evaluating the code at the failing input): in the bot
variant of part_000, if `get-current-game` persistently returns no game
(and `create-game` succeeds), `handlePlayCommand` re-invokes itself
forever — no recursion depth suffices for the call to return, so the
recursion is unbounded, contradicting the claim that it is bounded. -/
theorem C6_handlePlay_no_game_diverges :
    ∀ (fuel k : Nat), handlePlayFuel (fun _ => none) k fuel = none := by
  intro fuel
  induction fuel with
  | zero => intro k; rfl
  | succ m ih => intro k; exact ih (k + 1)

/-- Claim C7 counterexample: the claim that no operation in the client
layer terminates the client process on error fails — the `GeezBingoBot`
constructor of bot.js exits the process with code 1 when
`TELEGRAM_BOT_TOKEN` is missing. -/
theorem C7_counterexample :
    clientOpFailureAction ClientOperation.botConstructor = ClientAction.exitProcess 1 :=
  rfl

/-- Claim C7 (amended): every command, callback and notification
handler converts failures into a chat message or a log entry and never
terminates the client process; only the bot constructor's startup token
check exits. -/
theorem C7_handlers_never_exit :
    ∀ (h : Handler),
      ((∃ t, handlerFailureAction h = ClientAction.sendMessage t) ∨
        handlerFailureAction h = ClientAction.logOnly) ∧
      ∀ code, handlerFailureAction h ≠ ClientAction.exitProcess code := by
  intro h
  cases h <;> simp [handlerFailureAction]

/-- Claim C8: `markedCount` counts exactly the cells of the 5×5 grid
with `called = true`: it is at most 25, equals 25 iff every cell of the
flattened grid is called, and on a freshly built card it is exactly 1
— the pre-marked FREE centre cell is included in the count. -/
theorem C8_markedCount (card : Card) (h : card.wf) :
    (markedCount card = 25 ↔ ∀ cell ∈ card.numbers.flatten, cell.called = true) ∧
    markedCount card ≤ 25 ∧
    (∀ (cardNo : Nat) (gid : String) (nums : Nat → Nat → Nat),
      markedCount (buildCard cardNo gid nums) = 1) := by
  refine ⟨?_, ?_, ?_⟩
  · rw [markedCount, ← flatten_length_of_wf card h]
    exact List.filter_length_eq_length
  · calc markedCount card ≤ card.numbers.flatten.length := List.length_filter_le _ _
      _ = 25 := flatten_length_of_wf card h
  · intro cardNo gid nums
    have h5 : List.range 5 = [0, 1, 2, 3, 4] := rfl
    simp only [markedCount, buildCard, h5, List.map_cons, List.map_nil,
      List.flatten_cons, List.flatten_nil, List.filter_append, List.filter_cons,
      List.filter_nil, buildCell]
    norm_num

/-- Witness for C8: the all-called 5×5 card is well-formed and reports
25 marked cells. -/
theorem C8_witness :
    allCalledCard.wf ∧ markedCount allCalledCard = 25 :=
  ⟨by constructor <;> decide,
   (C8_markedCount allCalledCard (by constructor <;> decide)).1.mpr (by decide)⟩

/-- Claim C9: the buy-card request body built by `buyCard` has
`cardNumber` equal to null exactly when the selection is the string
`'random'`, and the chosen number otherwise; the `userId` and
`telegramChatId` fields do not depend on the selection. -/
theorem C9_buyCard_body (chatId : Int) (sel : JsCardNumber) :
    ((buyCardBody chatId sel).cardNumber = none ↔ sel = JsCardNumber.randomStr) ∧
    (∀ n : Int, sel = JsCardNumber.num n →
      (buyCardBody chatId sel).cardNumber = some (JsCardNumber.num n)) ∧
    (buyCardBody chatId sel).userId = getUserId chatId ∧
    (buyCardBody chatId sel).telegramChatId = chatId ∧
    (∀ sel' : JsCardNumber,
      (buyCardBody chatId sel').userId = (buyCardBody chatId sel).userId ∧
      (buyCardBody chatId sel').telegramChatId = (buyCardBody chatId sel).telegramChatId) := by
  refine ⟨?_, ?_, rfl, rfl, fun sel' => ⟨rfl, rfl⟩⟩
  · cases sel <;> simp [buyCardBody]
  · rintro n rfl
    simp [buyCardBody]

/-- Witness for C9: choosing card number 42 sends 42, not null. -/
theorem C9_witness :
    (buyCardBody 7 (JsCardNumber.num 42)).cardNumber = some (JsCardNumber.num 42) :=
  (C9_buyCard_body 7 (JsCardNumber.num 42)).2.1 42 rfl

/-- Claim C10: the socket context's `emit` does nothing but log a
warning when the socket is null or not connected, and forwards exactly
the given event name and payload when connected. -/
theorem C10_emit_guard {α : Type} (socket : Option Nat) (isConnected : Bool)
    (event : String) (payload : α) :
    ((socket = none ∨ isConnected = false) →
      contextEmit socket isConnected event payload = EmitResult.warnedOnly) ∧
    (∀ s, socket = some s → isConnected = true →
      contextEmit socket isConnected event payload = EmitResult.forwarded event payload) := by
  constructor
  · intro h
    rcases h with rfl | rfl
    · simp [contextEmit]
    · simp [contextEmit]
  · rintro s rfl rfl
    simp [contextEmit]

/-- Witness for C10: a disconnected emit only warns; a connected emit
forwards the event and payload unchanged. -/
theorem C10_witness :
    contextEmit (none : Option Nat) false "joinGame" (0 : Nat) = EmitResult.warnedOnly ∧
    contextEmit (some 1) true "joinGame" (0 : Nat) = EmitResult.forwarded "joinGame" 0 :=
  ⟨(C10_emit_guard none false "joinGame" 0).1 (Or.inl rfl),
   (C10_emit_guard (some 1) true "joinGame" 0).2 1 rfl rfl⟩

end BingoPlatforms
